import Mathlib

/-!
Shallow embedding of src/monitor.py (raspi-turntouch), a monitor for the
Turn Touch BLE remote.  Byte strings are modelled as List Nat (one byte per
element), Python integers as Nat, and the set of currently pressed direction
names (TurnTouchDevice.pressed, a Python set of strings) as Finset Direction.
-/

/-- The four button directions of DIRECTIONS (src/monitor.py:8). -/
inductive Direction : Type
  | north
  | east
  | west
  | south
deriving DecidableEq, Repr, Fintype

open Direction

/-- DIRECTIONS = {0: "north", 1: "east", 2: "west", 3: "south"}
(src/monitor.py:8), listed in dict insertion order, which is the order the
decode loop at src/monitor.py:118 iterates it in. -/
def DIRECTIONS : List (Nat × Direction) := [(0, north), (1, east), (2, west), (3, south)]

/-- Python int.from_bytes(value, "little"). -/
def intFromBytesLittle : List Nat → Nat
  | [] => 0
  | b :: rest => b + 256 * intFromBytesLittle rest

/-- Python int.from_bytes(value, byteorder="big"). -/
def intFromBytesBig (value : List Nat) : Nat :=
  List.foldl (fun acc b => acc * 256 + b) 0 value

/-- Embeds buttons = ~int.from_bytes(value, "little") & 0xF (src/monitor.py:116).
Python ~x is -(x+1); for x : Nat the low 4 bits of -(x+1) in two's complement
are 15 - x % 16. -/
def buttonsOf (value : List Nat) : Nat :=
  15 - intFromBytesLittle value % 16

/-- Embeds the loop at src/monitor.py:117-120:
new_pressed = set(); for (bit, name) in DIRECTIONS.items():
if buttons & (1 << bit): new_pressed.add(name) — the names whose bit test is
non-zero, in table order. -/
def newPressedList (value : List Nat) : List Direction :=
  List.map Prod.snd
    (List.filter (fun p => Nat.land (buttonsOf value) (Nat.shiftLeft 1 p.1) != 0) DIRECTIONS)

/-- The new_pressed set built by src/monitor.py:117-120. -/
def newPressedSet (value : List Nat) : Finset Direction :=
  (newPressedList value).toFinset

/-- Outcome of one button notification against the stored previous pressed set
(the ButtonCodec contract of spec 4.1, realised by src/monitor.py:116-129):
pressed is new_pressed, newlyPressed is new_pressed - self.pressed
(src/monitor.py:121), newlyReleased is self.pressed - new_pressed
(src/monitor.py:127). -/
structure DecodeResult where
  pressed : Finset Direction
  newlyPressed : Finset Direction
  newlyReleased : Finset Direction
deriving DecidableEq

/-- Button decoding with edge detection, src/monitor.py:116-129. -/
def decodeButtons (value : List Nat) (previous : Finset Direction) : DecodeResult :=
  { pressed := newPressedSet value
    newlyPressed := newPressedSet value \ previous
    newlyReleased := previous \ newPressedSet value }

/-- Embeds percentage = int(int.from_bytes(value, byteorder="big") * 100 / 255)
(src/monitor.py:113).  Python / is float division and int(...) truncates toward
zero; for the non-negative raw values here the correctly rounded double of
raw * 100 / 255 truncates to the same integer as Nat division whenever
raw * 100 < 2^53 (every payload of at most 6 bytes, and all inputs used
below), so it is modelled as Nat division. -/
def decodeBattery (value : List Nat) : Nat :=
  intFromBytesBig value * 100 / 255

/-- Bit index of each direction in the spec 4.1 mapping
(north=bit0, east=bit1, west=bit2, south=bit3). -/
def dirBit : Direction → Nat
  | north => 0
  | east => 1
  | west => 2
  | south => 3

/-- Written from the spec's words (spec 4.1 / 8) for comparison with the code:
the bit-to-direction mapping of a mask m — north iff bit0 of m is set, east iff
bit1, west iff bit2, south iff bit3. -/
def maskDirections (m : Nat) : Finset Direction :=
  List.toFinset (List.filter (fun d => m.testBit (dirBit d)) [north, east, west, south])

/-- C1: for every 4-bit mask m, decoding the button payload whose low byte is
~m & 0x0F (that is, 15 - m) with previous bitmask 0 yields a pressed direction
set equal to the bit-to-direction mapping of m exactly: the payload is
active-low and is inverted before mapping. -/
theorem C1_active_low_mapping : ∀ m : Nat, m < 16 →
    (decodeButtons [15 - m] ∅).pressed = maskDirections m := by
  decide

/-- Witness for C1 at the concrete mask m = 5. -/
theorem C1_active_low_mapping_witness :
    5 < 16 ∧ (decodeButtons [15 - 5] ∅).pressed = maskDirections 5 :=
  ⟨by decide, C1_active_low_mapping 5 (by decide)⟩

/-- C2: button edge detection is idempotent: decoding the same payload a second
time, after the stored previous set was updated to the first call's pressed
set, yields empty newly-pressed and newly-released sets. -/
theorem C2_edge_detection_idempotent (value : List Nat) (previous : Finset Direction) :
    (decodeButtons value (decodeButtons value previous).pressed).newlyPressed = ∅ ∧
    (decodeButtons value (decodeButtons value previous).pressed).newlyReleased = ∅ := by
  constructor <;> simp [decodeButtons]

/-- Observable outputs of one characteristic_value_updated call
(src/monitor.py:110-129): a press is published to MQTT and logged (lines
121-126), a release is logged (line 128), a battery reading is logged
(lines 113-114).  These are the session's emitted events in the sense of
spec 6. -/
inductive Event : Type
  | batteryLevel (pct : Nat)
  | pressedEv (d : Direction)
  | releasedEv (d : Direction)
deriving DecidableEq, Repr

/-- A characteristic handle as characteristic_value_updated sees it in a
resolved session: the battery characteristic handle
(self.battery_status_characteristic), the button characteristic handle
(self.button_status_characteristic), or any other characteristic.  The
handler compares its argument only against the battery handle
(src/monitor.py:112); there is no comparison against the button handle. -/
inductive Characteristic : Type
  | battery
  | button
  | other
deriving DecidableEq, Repr

/-- Update of the stored self.pressed set made by one
characteristic_value_updated call: the battery branch returns without touching
it (src/monitor.py:115); every other characteristic falls through to the
button branch and stores new_pressed (src/monitor.py:129). -/
def handlerStep (c : Characteristic) (value : List Nat) (pressed : Finset Direction) :
    Finset Direction :=
  if c = Characteristic.battery then pressed else newPressedSet value

/-- Emission of the button branch: the loops at src/monitor.py:121-128 iterate
the Python sets new_pressed - self.pressed and self.pressed - new_pressed.
CPython set iteration visits each element exactly once in an unspecified
(hash-seed dependent) order, so an admissible emission is the press events in
some permutation of the newly pressed directions followed by the release
events in some permutation of the newly released directions. -/
def EmitsButtons (value : List Nat) (previous : Finset Direction) (evs : List Event) : Prop :=
  ∃ p r : List Direction,
    p.Nodup ∧ (∀ d, d ∈ p ↔ d ∈ (decodeButtons value previous).newlyPressed) ∧
    r.Nodup ∧ (∀ d, d ∈ r ↔ d ∈ (decodeButtons value previous).newlyReleased) ∧
    evs = List.map Event.pressedEv p ++ List.map Event.releasedEv r

/-- Events one characteristic_value_updated call may emit: the battery branch
logs exactly one battery reading (src/monitor.py:113-115); every other
characteristic takes the button branch. -/
def Emits (c : Characteristic) (value : List Nat) (previous : Finset Direction)
    (evs : List Event) : Prop :=
  if c = Characteristic.battery then evs = [Event.batteryLevel (decodeBattery value)]
  else EmitsButtons value previous evs

/-- C3 counterexample: a notification on a characteristic that is neither the
button-status nor the battery characteristic is not ignored: on payload [14]
(decoded bitmask 1) with empty previous set the handler emits a press event
for north and changes the stored pressed set. -/
theorem C3_counterexample :
    Emits Characteristic.other [14] ∅ [Event.pressedEv north] ∧
    handlerStep Characteristic.other [14] ∅ ≠ ∅ := by
  constructor
  · exact ⟨[north], [], by decide, by decide, by decide, by decide, rfl⟩
  · decide

/-- C3 amended: only the battery characteristic is special-cased: a
notification on any characteristic other than the battery characteristic —
the button-status characteristic or any unrelated one — is processed as a
button notification, storing the decoded pressed set and emitting that
decode's press/release events; there is no ignore path. -/
theorem C3_only_battery_special (c : Characteristic) (value : List Nat)
    (pressed : Finset Direction) (h : c ≠ Characteristic.battery) :
    handlerStep c value pressed = (decodeButtons value pressed).pressed ∧
    ∀ evs, Emits c value pressed evs ↔ EmitsButtons value pressed evs := by
  constructor
  · simp [handlerStep, h, decodeButtons]
  · intro evs
    simp [Emits, h]

/-- Witness for C3's amended theorem at a concrete non-battery characteristic. -/
theorem C3_only_battery_special_witness :
    Characteristic.other ≠ Characteristic.battery ∧
    (handlerStep Characteristic.other [14] ∅ = (decodeButtons [14] ∅).pressed ∧
      ∀ evs, Emits Characteristic.other [14] ∅ evs ↔ EmitsButtons [14] ∅ evs) :=
  ⟨by decide, C3_only_battery_special Characteristic.other [14] ∅ (by decide)⟩

/-- C8 counterexample: button decoding of an empty payload neither fails nor
is dropped: b"" decodes as integer 0, whose active-low inversion is bitmask
0xF, so with empty previous set all four directions are newly pressed and the
stored pressed set changes. -/
theorem C8_counterexample :
    (decodeButtons [] ∅).newlyPressed = {north, east, west, south} ∧
    handlerStep Characteristic.button [] ∅ ≠ ∅ := by
  decide

/-- C8 amended: button decoding of an empty payload does not fail with an
error: int.from_bytes(b"") is 0, so the payload decodes to bitmask 0xF and the
handler treats all four directions as pressed, updating the stored set by
ordinary edge detection against the previous set. -/
theorem C8_empty_payload_all_pressed (previous : Finset Direction) :
    (decodeButtons [] previous).pressed = {north, east, west, south} ∧
    handlerStep Characteristic.button [] previous = {north, east, west, south} := by
  constructor
  · show newPressedSet [] = _
    decide
  · show newPressedSet [] = _
    decide

/-- C9 counterexample: battery decoding of the empty payload returns the
percentage 0 rather than failing: src/monitor.py:113 computes
int(int.from_bytes(b"", "big") * 100 / 255) = 0. -/
theorem C9_counterexample : decodeBattery [] = 0 := rfl

/-- C9 amended: battery decoding of an empty payload does not fail: the
big-endian integer of b"" is 0, decoding returns 0, and the handler emits
exactly the battery reading 0, leaving the stored pressed set unchanged. -/
theorem C9_empty_battery_payload (previous : Finset Direction) :
    Emits Characteristic.battery [] previous [Event.batteryLevel 0] ∧
    handlerStep Characteristic.battery [] previous = previous :=
  ⟨rfl, rfl⟩

/-- C10: button decoding depends only on the low 4 bits of the first payload
byte: two non-empty payloads whose first bytes agree modulo 16 decode
identically against any previous set, whatever the high bits of byte 0 or any
further bytes are. -/
theorem C10_low_nibble_only (b1 b2 : Nat) (rest1 rest2 : List Nat)
    (previous : Finset Direction) (h : b1 % 16 = b2 % 16) :
    decodeButtons (b1 :: rest1) previous = decodeButtons (b2 :: rest2) previous := by
  have hb : buttonsOf (b1 :: rest1) = buttonsOf (b2 :: rest2) := by
    unfold buttonsOf intFromBytesLittle
    have h1 : (b1 + 256 * intFromBytesLittle rest1) % 16 = b1 % 16 := by omega
    have h2 : (b2 + 256 * intFromBytesLittle rest2) % 16 = b2 % 16 := by omega
    rw [h1, h2, h]
  unfold decodeButtons newPressedSet newPressedList
  rw [hb]

/-- Witness for C10 at first bytes 18 and 50 (both 2 mod 16) and differing
payload tails. -/
theorem C10_low_nibble_only_witness :
    18 % 16 = 50 % 16 ∧ decodeButtons [18] ∅ = decodeButtons [50, 7] ∅ :=
  ⟨by decide, C10_low_nibble_only 18 50 [] [7] ∅ (by decide)⟩

/-- Phase of an emitted button event: the press loop (src/monitor.py:121-126)
runs to completion before the release loop (src/monitor.py:127-128) starts. -/
def evPhase : Event → Nat
  | Event.pressedEv _ => 0
  | Event.releasedEv _ => 1
  | Event.batteryLevel _ => 2

/-- Written from the spec's words (spec 4.4) for comparison with the code: the
press/release events of one button decode listed in the stable direction order
north, east, west, south, presses first. -/
def canonicalEvents (value : List Nat) (previous : Finset Direction) : List Event :=
  List.map Event.pressedEv
      (List.filter (fun d => decide (d ∈ (decodeButtons value previous).newlyPressed))
        [north, east, west, south]) ++
    List.map Event.releasedEv
      (List.filter (fun d => decide (d ∈ (decodeButtons value previous).newlyReleased))
        [north, east, west, south])

/-- C4 counterexample: on payload [6] (decoded bitmask 9: north and south)
with empty previous set, emitting the two press events as south then north is
an admissible Python set-iteration order, and it differs from the stable
north-east-west-south order. -/
theorem C4_counterexample :
    EmitsButtons [6] ∅ [Event.pressedEv south, Event.pressedEv north] ∧
    [Event.pressedEv south, Event.pressedEv north] ≠ canonicalEvents [6] ∅ := by
  constructor
  · exact ⟨[south, north], [], by decide, by decide, by decide, by decide, rfl⟩
  · decide

/-- C4 amended: every admissible emission of a button notification contains
exactly one press event per newly-pressed direction and exactly one release
event per newly-released direction, no battery events, and every press is
emitted before every release; the order inside each group is the unspecified
Python set iteration order, not necessarily north, east, west, south. -/
theorem C4_events_once_presses_first (value : List Nat) (previous : Finset Direction)
    (evs : List Event) (h : EmitsButtons value previous evs) :
    (∀ d, List.count (Event.pressedEv d) evs =
        if d ∈ (decodeButtons value previous).newlyPressed then 1 else 0) ∧
    (∀ d, List.count (Event.releasedEv d) evs =
        if d ∈ (decodeButtons value previous).newlyReleased then 1 else 0) ∧
    (∀ pct, List.count (Event.batteryLevel pct) evs = 0) ∧
    List.Sorted (· ≤ ·) (List.map evPhase evs) := by
  obtain ⟨p, r, hpn, hpm, hrn, hrm, rfl⟩ := h
  have hpinj : Function.Injective Event.pressedEv := by
    intro a b hab
    cases hab
    rfl
  have hrinj : Function.Injective Event.releasedEv := by
    intro a b hab
    cases hab
    rfl
  refine ⟨?_, ?_, ?_, ?_⟩
  · intro d
    have h2 : List.count (Event.pressedEv d) (List.map Event.releasedEv r) = 0 :=
      List.count_eq_zero.mpr (by simp)
    rw [List.count_append, h2, Nat.add_zero, List.count_map_of_injective _ _ hpinj]
    by_cases hd : d ∈ (decodeButtons value previous).newlyPressed
    · rw [if_pos hd]
      exact List.count_eq_one_of_mem hpn ((hpm d).mpr hd)
    · rw [if_neg hd, List.count_eq_zero]
      exact fun hm => hd ((hpm d).mp hm)
  · intro d
    have h1 : List.count (Event.releasedEv d) (List.map Event.pressedEv p) = 0 :=
      List.count_eq_zero.mpr (by simp)
    rw [List.count_append, h1, Nat.zero_add, List.count_map_of_injective _ _ hrinj]
    by_cases hd : d ∈ (decodeButtons value previous).newlyReleased
    · rw [if_pos hd]
      exact List.count_eq_one_of_mem hrn ((hrm d).mpr hd)
    · rw [if_neg hd, List.count_eq_zero]
      exact fun hm => hd ((hrm d).mp hm)
  · intro pct
    have h1 : List.count (Event.batteryLevel pct) (List.map Event.pressedEv p) = 0 :=
      List.count_eq_zero.mpr (by simp)
    have h2 : List.count (Event.batteryLevel pct) (List.map Event.releasedEv r) = 0 :=
      List.count_eq_zero.mpr (by simp)
    rw [List.count_append, h1, h2]
  · rw [List.map_append, List.map_map, List.map_map, List.Sorted, List.pairwise_append]
    refine ⟨?_, ?_, ?_⟩
    · rw [List.pairwise_map]
      exact List.pairwise_of_forall_mem_list fun a _ b _ => Nat.le_refl 0
    · rw [List.pairwise_map]
      exact List.pairwise_of_forall_mem_list fun a _ b _ => Nat.le_refl 1
    · intro a ha b hb
      rw [List.mem_map] at ha hb
      obtain ⟨d1, _, rfl⟩ := ha
      obtain ⟨d2, _, rfl⟩ := hb
      exact Nat.zero_le _

/-- Witness for C4's amended theorem at payload [6], empty previous set and a
concrete admissible emission. -/
theorem C4_events_once_presses_first_witness :
    EmitsButtons [6] ∅ [Event.pressedEv north, Event.pressedEv south] ∧
    ((∀ d, List.count (Event.pressedEv d) [Event.pressedEv north, Event.pressedEv south] =
        if d ∈ (decodeButtons [6] ∅).newlyPressed then 1 else 0) ∧
      (∀ d, List.count (Event.releasedEv d) [Event.pressedEv north, Event.pressedEv south] =
        if d ∈ (decodeButtons [6] ∅).newlyReleased then 1 else 0) ∧
      (∀ pct, List.count (Event.batteryLevel pct)
        [Event.pressedEv north, Event.pressedEv south] = 0) ∧
      List.Sorted (fun a b => a ≤ b)
        (List.map evPhase [Event.pressedEv north, Event.pressedEv south])) :=
  have h : EmitsButtons [6] ∅ [Event.pressedEv north, Event.pressedEv south] :=
    ⟨[north, south], [], by decide, by decide, by decide, by decide, rfl⟩
  ⟨h, C4_events_once_presses_first [6] ∅ _ h⟩

/-- C7 counterexample: the battery percentage is not always in [0,100]: the
two-byte payload ff ff has big-endian raw value 65535 and src/monitor.py:113
computes int(65535 * 100 / 255) = 25700. -/
theorem C7_counterexample :
    decodeBattery [255, 255] = 25700 ∧ ¬ decodeBattery [255, 255] ≤ 100 := by
  decide

/-- C7 amended: battery decoding interprets the payload as a big-endian
unsigned integer raw and returns raw * 100 / 255 with integer truncation; for
every single-byte payload the result lies in [0,100], with 0xFF decoding to
100, 0x00 to 0 and 0x80 to 50.  For payloads of more than one byte raw can
exceed 255 and the result then exceeds 100. -/
theorem C7_battery_scaling :
    (∀ b : Nat, b < 256 → decodeBattery [b] = b * 100 / 255 ∧ decodeBattery [b] ≤ 100) ∧
    decodeBattery [255] = 100 ∧ decodeBattery [0] = 0 ∧ decodeBattery [128] = 50 := by
  refine ⟨?_, by decide, by decide, by decide⟩
  intro b hb
  have hraw : decodeBattery [b] = b * 100 / 255 := by
    simp [decodeBattery, intFromBytesBig]
  refine ⟨hraw, ?_⟩
  rw [hraw]
  omega

/-- Witness for C7's amended theorem at the concrete raw byte 66. -/
theorem C7_battery_scaling_witness :
    66 < 256 ∧ (decodeBattery [66] = 66 * 100 / 255 ∧ decodeBattery [66] ≤ 100) :=
  ⟨by decide, C7_battery_scaling.1 66 (by decide)⟩

/-- BUTTON_STATUS_SERVICE_UUID (src/monitor.py:7). -/
def BUTTON_STATUS_SERVICE_UUID : String := "99c31523-dc4f-41b1-bb04-4e4deb81fadd"

/-- The button notify characteristic UUID (src/monitor.py:78). -/
def BUTTON_STATUS_CHARACTERISTIC_UUID : String := "99c31525-dc4f-41b1-bb04-4e4deb81fadd"

/-- A GATT characteristic as enumerated by the transport, identified by its
UUID string. -/
structure GattCharacteristic where
  uuid : String
deriving DecidableEq, Repr

/-- A GATT service with its characteristics. -/
structure GattService where
  uuid : String
  characteristics : List GattCharacteristic
deriving DecidableEq, Repr

/-- Python str.startswith on the ASCII UUID strings used here, modelled on the
underlying character lists so that it evaluates by kernel reduction. -/
def uuidStartsWith (s pre : String) : Bool :=
  List.isPrefixOf pre.data s.data

/-- Exceptions TurnTouchDevice.services_resolved can raise: StopIteration from
next(...) without a default (src/monitor.py:71-79), and AttributeError from
the self.sched access at src/monitor.py:100 — no attribute named sched is ever
assigned on TurnTouchDevice or TurnTouchDeviceManager anywhere in
src/monitor.py (nor provided by the gatt.Device base class of the external
transport), so evaluating self.sched raises. -/
inductive PyError : Type
  | stopIteration
  | attributeError
deriving DecidableEq, Repr

/-- External calls services_resolved issues, in program order. -/
inductive SessionAction : Type
  | enableNotifications (uuid : String)
  | readValue (uuid : String)
deriving DecidableEq, Repr

/-- Embeds TurnTouchDevice.services_resolved (src/monitor.py:69-104) as the
list of external calls performed, in order, paired with the exception the
handler raises, if any: next(...) with no default raises StopIteration when
the button service or its characteristic is missing; the battery service and
characteristic are looked up by UUID prefix with default None; when both are
found, read_value() is called and then self.sched.add_job(..., minutes=1)
raises AttributeError before any recurring job is scheduled. -/
def services_resolved (services : List GattService) : List SessionAction × Option PyError :=
  match services.find? (fun s => s.uuid == BUTTON_STATUS_SERVICE_UUID) with
  | none => ([], some PyError.stopIteration)
  | some bss =>
    match bss.characteristics.find? (fun c => c.uuid == BUTTON_STATUS_CHARACTERISTIC_UUID) with
    | none => ([], some PyError.stopIteration)
    | some bsc =>
      match services.find? (fun s => uuidStartsWith s.uuid ("0000180f")) with
      | none => ([SessionAction.enableNotifications bsc.uuid], none)
      | some bats =>
        match bats.characteristics.find? (fun c => uuidStartsWith c.uuid ("00002a19")) with
        | none => ([SessionAction.enableNotifications bsc.uuid], none)
        | some batc =>
          ([SessionAction.enableNotifications bsc.uuid, SessionAction.readValue batc.uuid],
            some PyError.attributeError)

/-- A resolved service list for a remote exposing both the button-status
service and a standard battery service. -/
def demoServices : List GattService :=
  [{ uuid := BUTTON_STATUS_SERVICE_UUID
     characteristics := [{ uuid := BUTTON_STATUS_CHARACTERISTIC_UUID }] },
   { uuid := "0000180f-0000-1000-8000-00805f9b34fb"
     characteristics := [{ uuid := "00002a19-0000-1000-8000-00805f9b34fb" }] }]

/-- C5: on a device that does expose a battery characteristic, the
service-resolution handler enables button notifications and performs the one
immediate battery read, but then raises AttributeError at self.sched.add_job
(src/monitor.py:100) instead of completing: the recurring 1-minute battery
read is never scheduled. -/
theorem C5_sched_attribute_error :
    services_resolved demoServices =
      ([SessionAction.enableNotifications BUTTON_STATUS_CHARACTERISTIC_UUID,
        SessionAction.readValue ("00002a19-0000-1000-8000-00805f9b34fb")],
        some PyError.attributeError) := by
  decide
